import Mathlib

/-!
Verification development for the WeatherInfo forecast-tracking service
(`src/main.py`).  The pydantic data model, the binary search
`search_forecast`, the refresh pipeline (`parse_forecasts`,
`update_forecasts`, `update_forecasts_for_city`, `add_city`), the query
endpoint `get_forecast`, and the JSON snapshot round trip
(`dump_weather_to_db` / `load_weather_from_db`) are embedded shallowly:
Python floats become rationals, `datetime` values become natural-number
instants (seconds), exceptions become `Option`/`Except`, and the global
`tracked_cities` dict becomes an explicit association list threaded
through the operations (Python dicts preserve insertion order, as the
list does).
-/

namespace WeatherInfo

/-- `Location` pydantic model: latitude/longitude pair.  The pydantic
field bounds (`ge`/`le`) are captured separately by `validLocation`. -/
structure Location where
  latitude : ℚ
  longitude : ℚ
deriving DecidableEq, Repr

/-- `WeatherData` pydantic model: all fields independently optional. -/
structure WeatherData where
  temperature : Option ℚ
  humidity : Option ℚ
  precipitation : Option ℚ
  pressure : Option ℚ
  wind_speed : Option ℚ
  wind_direction : Option ℚ
deriving DecidableEq, Repr

/-- `Forecast` pydantic model: a timestamped weather sample.  `time`
models a naive `datetime` as seconds on a single consistent clock. -/
structure Forecast where
  time : ℕ
  data : WeatherData
deriving DecidableEq, Repr

/-- `CityWeatherData` pydantic model: coordinates plus forecast series. -/
structure CityWeatherData where
  location : Location
  forecasts : List Forecast
deriving DecidableEq, Repr

/-- The global `tracked_cities : dict[str, CityWeatherData]`, as an
insertion-ordered association list. -/
abbrev TrackingTable := List (String × CityWeatherData)

/-- The error responses the endpoints produce (`HTTPException`s and a
propagated upstream failure). -/
inductive ApiError where
  /-- 404: city not in the tracking map, or no preceding forecast. -/
  | notFound
  /-- 409: city already tracked. -/
  | conflict
  /-- 400: bad `daytime` string (carries the offending string). -/
  | badTime (s : String)
  /-- 404 from `get_forecast` when `search_forecast` finds nothing. -/
  | noData
  /-- an exception propagating out of a provider call / parse. -/
  | upstream
deriving DecidableEq, Repr

/-- The `while l <= r` loop of `search_forecast` (src/main.py:398-404).
`l`, `r` are Python ints (`r` reaches `-1`), so they are `Int` here;
Lean's `Int` division `/` is floor division, exactly Python's `//`.
On every reachable call `0 ≤ l`, so `m.toNat` indexes like Python's
`forecasts[m]`; the `none` fallback models the (unreachable, since
`m ≤ r < len`) `IndexError`. -/
def searchLoop (forecasts : List Forecast) (t : ℕ) (l r : Int)
    (result : Option Forecast) : Option Forecast :=
  if l ≤ r then
    let m := (l + r) / 2
    match forecasts.get? m.toNat with
    | some f =>
      if f.time ≤ t then searchLoop forecasts t (m + 1) r (some f)
      else searchLoop forecasts t l (m - 1) result
    | none => none
  else result
termination_by (r + 1 - l).toNat
decreasing_by all_goals omega

/-- `search_forecast` (src/main.py:389-406): latest forecast preceding
`forecast_datetime`, by binary search; `none` on the empty list. -/
def search_forecast (forecasts : List Forecast) (forecast_datetime : ℕ) :
    Option Forecast :=
  if forecasts = [] then none
  else searchLoop forecasts forecast_datetime 0 ((forecasts.length : Int) - 1) none

/-- Forecast series sorted non-decreasing by timestamp. -/
def SortedSeries (forecasts : List Forecast) : Prop :=
  List.Pairwise (fun a b => a.time ≤ b.time) forecasts

instance : DecidablePred SortedSeries := fun forecasts =>
  inferInstanceAs (Decidable (List.Pairwise _ forecasts))

/-- Number of entries with timestamp `≤ t`; for a sorted series these
form a prefix and this is the index one past the last eligible entry. -/
def eligCount (forecasts : List Forecast) (t : ℕ) : ℕ :=
  (forecasts.filter (fun f => f.time ≤ t)).length

/-- One per-location response of `openmeteo.weather_api`: the five
15-minute variables (indices 0-4 of `Minutely15`), the hourly pressure
(index 0 of `Hourly`), and the 15-minute block's time metadata. -/
structure ApiResponse where
  temperature : List ℚ
  humidity : List ℚ
  precipitation : List ℚ
  wind_speed : List ℚ
  wind_direction : List ℚ
  pressure : List ℚ
  m15Time : ℕ
  m15TimeEnd : ℕ
  m15Interval : ℕ
deriving DecidableEq, Repr

/-- The upstream provider: coordinates in, one response per coordinate
pair, positionally.  `openmeteo.weather_api(url, params)` with list
latitudes/longitudes. -/
abbrev Provider := List ℚ → List ℚ → List ApiResponse

/-- `pd.date_range(start, end, freq=interval, inclusive="left")`:
instants `start + k * interval` strictly below `stop`. -/
def time_range (start stop interval : ℕ) : List ℕ :=
  (List.range ((stop - start + interval - 1) / interval)).map
    (fun k => start + k * interval)

/-- `parse_forecasts` (src/main.py:114-152).  Builds one `Forecast` per
15-minute instant; each variable is read at index `i` and pressure at
`i / 4` (hourly data broadcast over the four quarter hours).  `none`
models an `IndexError` from a too-short variable array. -/
def parse_forecasts (response : ApiResponse) : Option (List Forecast) :=
  let tr := time_range response.m15Time response.m15TimeEnd response.m15Interval
  (List.range tr.length).mapM (fun i => do
    let t ← tr.get? i
    let te ← response.temperature.get? i
    let hu ← response.humidity.get? i
    let pc ← response.precipitation.get? i
    let ws ← response.wind_speed.get? i
    let wd ← response.wind_direction.get? i
    let pr ← response.pressure.get? (i / 4)
    some { time := t
           data := { temperature := some te, humidity := some hu
                     precipitation := some pc, pressure := some pr
                     wind_speed := some ws, wind_direction := some wd } })

/-- `tracked_cities[city].forecasts = fs`: replace one entry's series in
place (Python dict update keeps insertion order and every other entry). -/
def set_city_forecasts (table : TrackingTable) (city : String)
    (fs : List Forecast) : TrackingTable :=
  table.map (fun p => if p.1 = city then (p.1, { p.2 with forecasts := fs }) else p)

/-- `update_forecasts_for_city` (src/main.py:68-87): fetch one location
and replace its series.  `none` models a propagating exception
(`KeyError`, empty response list, or parse failure), in which case the
table is left unchanged by the Python code (the assignment never runs). -/
def update_forecasts_for_city (provider : Provider) (table : TrackingTable)
    (city : String) : Option TrackingTable := do
  let cwd ← table.lookup city
  let responses := provider [cwd.location.latitude] [cwd.location.longitude]
  let response ← responses.get? 0
  let fs ← parse_forecasts response
  some (set_city_forecasts table city fs)

/-- `update_forecasts` (src/main.py:90-111): one batched provider call
over all tracked coordinates (in table iteration order), then the `i`-th
response is parsed into the `i`-th entry's new series.  `none` models a
propagating exception (`responses[i]` out of range or a parse failure);
success requires every entry to update. -/
def update_forecasts (provider : Provider) (table : TrackingTable) :
    Option TrackingTable :=
  let latitudes := table.map (fun p => p.2.location.latitude)
  let longitudes := table.map (fun p => p.2.location.longitude)
  let responses := provider latitudes longitudes
  (List.range table.length).mapM (fun i => do
    let entry ← table.get? i
    let response ← responses.get? i
    let fs ← parse_forecasts response
    some (entry.1, { entry.2 with forecasts := fs }))

/-- `add_city` (src/main.py:326-344): insert a fresh label with the
given coordinates and an empty series, then refresh that single city;
409 conflict (and no mutation) if the label is tracked.  The result pairs
the error (if any) with the post-call table: when the initial refresh
raises, the inserted entry stays with its empty series. -/
def add_city (provider : Provider) (table : TrackingTable) (city : String)
    (location : Location) : Option ApiError × TrackingTable :=
  if (table.lookup city).isNone then
    match update_forecasts_for_city provider
        (table ++ [(city, { location := location, forecasts := [] })]) city with
    | some updated => (none, updated)
    | none => (some .upstream, table ++ [(city, { location := location, forecasts := [] })])
  else (some .conflict, table)

/-- `ForecastQueryParameters` pydantic model; each flag defaults to
`True` (`some true`), `daytime` defaults to `None`. -/
structure ForecastQueryParameters where
  daytime : Option String := none
  temperature : Option Bool := some true
  humidity : Option Bool := some true
  precipitation : Option Bool := some true
  pressure : Option Bool := some true
  wind_speed : Option Bool := some true
  wind_direction : Option Bool := some true
deriving DecidableEq, Repr

/-- A decimal digit character's value, or `none`. -/
def digit? (c : Char) : Option ℕ :=
  if c.isDigit then some (c.toNat - 48) else none

/-- Range check of `strptime`'s `%H`/`%M` directives. -/
def mkHM (h m : ℕ) : Option (ℕ × ℕ) :=
  if h ≤ 23 ∧ m ≤ 59 then some (h, m) else none

/-- `datetime.strptime(daytime, "%H:%M")`: a one or two digit hour
`0-23`, a colon, a one or two digit minute `0-59`, and nothing else
(`strptime` rejects unconverted trailing data) — `none` models the
`ValueError`. -/
def parseHHMM (s : String) : Option (ℕ × ℕ) :=
  match s.data with
  | [a, ':', b] => do mkHM (← digit? a) (← digit? b)
  | [a, a2, ':', b] => do mkHM (10 * (← digit? a) + (← digit? a2)) (← digit? b)
  | [a, ':', b, b2] => do mkHM (← digit? a) (10 * (← digit? b) + (← digit? b2))
  | [a, a2, ':', b, b2] =>
    do mkHM (10 * (← digit? a) + (← digit? a2)) (10 * (← digit? b) + (← digit? b2))
  | _ => none

/-- Query-time resolution step of `get_forecast` (src/main.py:364-372):
`datetime.now()` unless a (truthy, i.e. non-empty) `daytime` string is
given, in which case it is parsed as HH:mm and combined with
`date.today()` (modelled as the day-start instant `dayStart`). -/
def resolve_query_time (now dayStart : ℕ) (daytime : Option String) :
    Except ApiError ℕ :=
  match daytime with
  | none => .ok now
  | some s =>
    if s.isEmpty then .ok now
    else
      match parseHHMM s with
      | some hm => .ok (dayStart + hm.1 * 3600 + hm.2 * 60)
      | none => .error (.badTime s)

/-- The response-filtering dict comprehension of `get_forecast`
(src/main.py:382-386): iterate the parameter fields in declaration order,
skip `daytime`, and keep a field exactly when its flag `is True`.  A kept
field carries the forecast's value, which may itself be `none` (null). -/
def filtered_data (parameters : ForecastQueryParameters) (d : WeatherData) :
    List (String × Option ℚ) :=
  (if parameters.temperature = some true then [("temperature", d.temperature)] else []) ++
  (if parameters.humidity = some true then [("humidity", d.humidity)] else []) ++
  (if parameters.precipitation = some true then [("precipitation", d.precipitation)] else []) ++
  (if parameters.pressure = some true then [("pressure", d.pressure)] else []) ++
  (if parameters.wind_speed = some true then [("wind_speed", d.wind_speed)] else []) ++
  (if parameters.wind_direction = some true then [("wind_direction", d.wind_direction)] else [])

/-- `get_forecast` (src/main.py:351-387): 404 for an untracked city,
resolve the query time (400 on a bad `daytime`), binary-search the
series (404 if nothing precedes), then project onto the requested
fields. -/
def get_forecast (now dayStart : ℕ) (table : TrackingTable) (city : String)
    (parameters : ForecastQueryParameters) :
    Except ApiError (List (String × Option ℚ)) :=
  match table.lookup city with
  | none => .error .notFound
  | some cwd =>
    match resolve_query_time now dayStart parameters.daytime with
    | .error e => .error e
    | .ok forecast_datetime =>
      match search_forecast cwd.forecasts forecast_datetime with
      | none => .error .noData
      | some f => .ok (filtered_data parameters f.data)

/-- A JSON document, at tree level (`json.dumps`/`json.loads` are
mutually inverse between trees and text, so the text stage is not
re-modelled).  Objects keep key order, as Python dicts do. -/
inductive Json where
  | null : Json
  | num : ℚ → Json
  | str : String → Json
  | arr : List Json → Json
  | obj : List (String × Json) → Json

/-- A decoded Python value as produced by `json.loads` with
`load_weather_from_db`'s `object_hook`: plain JSON data, or one of the
pydantic objects the hook builds. -/
inductive PyVal where
  | none_ : PyVal
  | num : ℚ → PyVal
  | str : String → PyVal
  | list : List PyVal → PyVal
  | dict : List (String × PyVal) → PyVal
  | loc : Location → PyVal
  | forecast : Forecast → PyVal
  | city : CityWeatherData → PyVal

/-- A digit `0-9` as its character. -/
def digitChar (d : ℕ) : Char :=
  match d with
  | 0 => '0' | 1 => '1' | 2 => '2' | 3 => '3' | 4 => '4'
  | 5 => '5' | 6 => '6' | 7 => '7' | 8 => '8' | _ => '9'

/-- A digit character back to its value. -/
def charDigit (c : Char) : ℕ := c.toNat - 48

/-- `datetime.isoformat()`, abstracted: an injective decimal rendering of
the instant.  (The calendar formatting itself is Python library code; what
the repository relies on is only that `fromisoformat` inverts it.) -/
def timeToIso (t : ℕ) : String :=
  if t = 0 then "0" else ⟨((Nat.digits 10 t).map digitChar).reverse⟩

/-- `datetime.fromisoformat`, the matching parse: digits only, else the
`ValueError` is modelled as `none`. -/
def isoToTime (s : String) : Option ℕ :=
  if s.data ≠ [] ∧ s.data.all (fun c => c.isDigit) then
    some (Nat.ofDigits 10 ((s.data.map charDigit).reverse))
  else none

/-- An optional weather value as `model_dump` + `json.dumps` render it. -/
def optJson (o : Option ℚ) : Json :=
  match o with
  | none => .null
  | some q => .num q

/-- `WeatherData.model_dump()`: field dict in declaration order. -/
def dumpWeatherData (d : WeatherData) : List (String × Json) :=
  [("temperature", optJson d.temperature), ("humidity", optJson d.humidity),
   ("precipitation", optJson d.precipitation), ("pressure", optJson d.pressure),
   ("wind_speed", optJson d.wind_speed), ("wind_direction", optJson d.wind_direction)]

/-- A `Forecast` as serialized: ISO time string plus data dict. -/
def dumpForecast (f : Forecast) : Json :=
  .obj [("time", .str (timeToIso f.time)), ("data", .obj (dumpWeatherData f.data))]

/-- A `CityWeatherData` as serialized: location dict plus forecast array. -/
def dumpCity (c : CityWeatherData) : Json :=
  .obj [("location", .obj [("latitude", .num c.location.latitude),
                           ("longitude", .num c.location.longitude)]),
        ("forecasts", .arr (c.forecasts.map dumpForecast))]

/-- `dump_weather_to_db` (src/main.py:155-168): `json.dumps` of the
tracking map with the `custom_serializer` (pydantic `model_dump`,
datetimes via `isoformat`).  The sqlite insert stores exactly this
document; the model returns it. -/
def dump_weather_to_db (table : TrackingTable) : Json :=
  .obj (table.map (fun p => (p.1, dumpCity p.2)))

/-- A pydantic numeric-bounds check (`Field(ge=lo, le=hi)`). -/
def checkNum (lo hi : Option ℚ) (q : ℚ) : Bool :=
  (match lo with | none => true | some a => decide (a ≤ q)) &&
  (match hi with | none => true | some b => decide (q ≤ b))

/-- One optional `WeatherData` field of `WeatherData(**fields)`: absent
or null gives the `None` default, a number must pass its bounds, any
other value is a validation error. -/
def getOptNum (key : String) (lo hi : Option ℚ)
    (fields : List (String × PyVal)) : Option (Option ℚ) :=
  match fields.lookup key with
  | none => some none
  | some .none_ => some none
  | some (.num q) => if checkNum lo hi q then some (some q) else none
  | some _ => none

/-- `WeatherData(**obj["data"])` with the pydantic field constraints. -/
def buildWeatherData (fields : List (String × PyVal)) : Option WeatherData := do
  let te ← getOptNum "temperature" none none fields
  let hu ← getOptNum "humidity" (some 0) (some 100) fields
  let pc ← getOptNum "precipitation" (some 0) none fields
  let pr ← getOptNum "pressure" (some 0) none fields
  let ws ← getOptNum "wind_speed" (some 0) none fields
  let wd ← getOptNum "wind_direction" (some 0) (some 360) fields
  some { temperature := te, humidity := hu, precipitation := pc
         pressure := pr, wind_speed := ws, wind_direction := wd }

/-- The `custom_decoder` branch `Location(**obj)`: both coordinates must
be numbers within the pydantic bounds (extra keys are ignored). -/
def decodeLocation (d : List (String × PyVal)) : Option PyVal :=
  match d.lookup "latitude", d.lookup "longitude" with
  | some (.num a), some (.num b) =>
    if checkNum (some (-90)) (some 90) a ∧ checkNum (some (-180)) (some 180) b then
      some (.loc { latitude := a, longitude := b })
    else none
  | _, _ => none

/-- The `custom_decoder` branch
`Forecast(time=fromisoformat(obj["time"]), data=WeatherData(**obj["data"]))`. -/
def decodeForecastObj (d : List (String × PyVal)) : Option PyVal :=
  match d.lookup "time" with
  | some (.str s) =>
    (do
      let t ← isoToTime s
      match d.lookup "data" with
      | some (.dict fields) =>
        (buildWeatherData fields).map (fun w => .forecast { time := t, data := w })
      | _ => none)
  | _ => none

/-- The `custom_decoder` branch rebuilding `CityWeatherData`: the
location value must already be a decoded `Location`, and every element of
the forecasts list a decoded `Forecast` (anything else raises when
`forecast.time` is read, or fails pydantic validation). -/
def decodeCityObj (d : List (String × PyVal)) : Option PyVal :=
  match d.lookup "location", d.lookup "forecasts" with
  | some (.loc l), some (.list vs) => do
    let fs ← vs.mapM (fun v =>
      match v with
      | .forecast f => some f
      | _ => none)
    some (.city { location := l, forecasts := fs })
  | _, _ => none

/-- `custom_decoder` (src/main.py:213-236), applied by `json.loads` as
`object_hook` to every decoded dict: structural guessing on which keys
are present, in source order; an unmatched dict passes through. -/
def customDecoder (d : List (String × PyVal)) : Option PyVal :=
  if "latitude" ∈ d.map Prod.fst ∧ "longitude" ∈ d.map Prod.fst then
    decodeLocation d
  else if "time" ∈ d.map Prod.fst ∧ "data" ∈ d.map Prod.fst then
    decodeForecastObj d
  else if "location" ∈ d.map Prod.fst ∧ "forecasts" ∈ d.map Prod.fst then
    decodeCityObj d
  else some (.dict d)

mutual

/-- `json.loads(json_data, object_hook=custom_decoder)`: bottom-up
decoding where every object first has its values decoded and is then
passed through the hook; `none` models a raised exception. -/
def decode : Json → Option PyVal
  | .null => some .none_
  | .num q => some (.num q)
  | .str s => some (.str s)
  | .arr xs => (decodeList xs).map .list
  | .obj fs => (decodeFields fs).bind customDecoder

/-- Elementwise decoding of a JSON array. -/
def decodeList : List Json → Option (List PyVal)
  | [] => some []
  | x :: xs => do
    let v ← decode x
    let vs ← decodeList xs
    some (v :: vs)

/-- Valuewise decoding of a JSON object's fields. -/
def decodeFields : List (String × Json) → Option (List (String × PyVal))
  | [] => some []
  | kv :: fs => do
    let v ← decode kv.2
    let vs ← decodeFields fs
    some ((kv.1, v) :: vs)

end

/-- `load_weather_from_db` (src/main.py:205-239) on a stored document:
deserialize with the `object_hook` above and return the result. -/
def load_weather_from_db (j : Json) : Option PyVal := decode j

/-- The value `load_weather_from_db` must produce for the round trip to
succeed: the same map, each city decoded back to its `CityWeatherData`. -/
def tableToPyVal (table : TrackingTable) : PyVal :=
  .dict (table.map (fun p => (p.1, .city p.2)))

/-- The pydantic bounds on `Location`, which every constructed
`Location` satisfies. -/
def validLocation (l : Location) : Bool :=
  checkNum (some (-90)) (some 90) l.latitude &&
  checkNum (some (-180)) (some 180) l.longitude

/-- The pydantic bounds on `WeatherData`, which every constructed
`WeatherData` satisfies. -/
def validWeatherData (d : WeatherData) : Bool :=
  d.humidity.all (checkNum (some 0) (some 100)) &&
  d.precipitation.all (checkNum (some 0) none) &&
  d.pressure.all (checkNum (some 0) none) &&
  d.wind_speed.all (checkNum (some 0) none) &&
  d.wind_direction.all (checkNum (some 0) (some 360))

/-- A table whose every value satisfies the pydantic invariants. -/
def validTable (table : TrackingTable) : Bool :=
  table.all (fun p =>
    validLocation p.2.location &&
    p.2.forecasts.all (fun f => validWeatherData f.data))

/-- An optional weather value as the decoder sees it (null or number). -/
def pvOpt (o : Option ℚ) : PyVal :=
  match o with
  | none => .none_
  | some q => .num q

/-- The decoded (hook-untouched) dict of a serialized `WeatherData`. -/
def wdFields (d : WeatherData) : List (String × PyVal) :=
  [("temperature", pvOpt d.temperature), ("humidity", pvOpt d.humidity),
   ("precipitation", pvOpt d.precipitation), ("pressure", pvOpt d.pressure),
   ("wind_speed", pvOpt d.wind_speed), ("wind_direction", pvOpt d.wind_direction)]

/-- A perfectly valid table whose labels happen to be "location" and
"forecasts" — label strings the route pattern allows. -/
def clashTable : TrackingTable :=
  [("location", { location := { latitude := 0, longitude := 0 }, forecasts := [] }),
   ("forecasts", { location := { latitude := 0, longitude := 0 }, forecasts := [] })]

/-- A tiny all-`none` weather sample for concrete witnesses. -/
def sampleData : WeatherData :=
  { temperature := none, humidity := none, precipitation := none
    pressure := none, wind_speed := none, wind_direction := none }

/-- A concrete sorted three-entry series (00:00, 00:15, 00:30 in
seconds). -/
def sampleSeries : List Forecast :=
  [{ time := 0, data := sampleData }, { time := 900, data := sampleData },
   { time := 1800, data := sampleData }]

/-- A concrete sorted series with a duplicated timestamp for the C5
witness. -/
def sampleTieSeries : List Forecast :=
  [{ time := 5, data := sampleData }, { time := 5, data := sampleData },
   { time := 7, data := sampleData }]

/-- A concrete provider response: two 15-minute instants, hourly
pressure; parses successfully. -/
def sampleResponse : ApiResponse :=
  { temperature := [1, 2], humidity := [30, 40], precipitation := [0, 0]
    wind_speed := [5, 6], wind_direction := [70, 80], pressure := [990]
    m15Time := 0, m15TimeEnd := 1800, m15Interval := 900 }

/-- A concrete provider answering every coordinate pair with
`sampleResponse`. -/
def sampleProvider : Provider := fun lats _ => lats.map (fun _ => sampleResponse)

/-- A concrete one-city tracking table. -/
def sampleTable : TrackingTable :=
  [("A", { location := { latitude := 1, longitude := 2 }, forecasts := [] })]

/-- A provider whose calls always fail (empty response list). -/
def failingProvider : Provider := fun _ _ => []

/-- What `parse_forecasts sampleResponse` yields. -/
def sampleParsed : List Forecast :=
  [{ time := 0
     data := { temperature := some 1, humidity := some 30, precipitation := some 0
               pressure := some 990, wind_speed := some 5, wind_direction := some 70 } },
   { time := 900
     data := { temperature := some 2, humidity := some 40, precipitation := some 0
               pressure := some 990, wind_speed := some 6, wind_direction := some 80 } }]

/-- `sampleTable` after a refresh through `sampleProvider`. -/
def sampleRefreshed : TrackingTable :=
  [("A", { location := { latitude := 1, longitude := 2 }, forecasts := sampleParsed })]

/-- Spec scenario 6 sample: temperature 21.5, humidity 60. -/
def scenario6Data : WeatherData :=
  { temperature := some (43/2), humidity := some 60, precipitation := none
    pressure := none, wind_speed := none, wind_direction := none }

/-- A table holding one forecast carrying `scenario6Data`. -/
def scenario6Table : TrackingTable :=
  [("A", { location := { latitude := 0, longitude := 0 }
           forecasts := [{ time := 900, data := scenario6Data }] })]

/-- Field selection `{temperature}`: every other flag false. -/
def scenario6Params : ForecastQueryParameters :=
  { daytime := none, temperature := some true, humidity := some false
    precipitation := some false, pressure := some false
    wind_speed := some false, wind_direction := some false }

/-- A tracked city with an empty series. -/
def scenario5Table : TrackingTable :=
  [("a", { location := { latitude := 0, longitude := 0 }, forecasts := [] })]

/-- Query parameters carrying the unparseable daytime "25:99". -/
def badTimeParams : ForecastQueryParameters := { daytime := some "25:99" }

/-- Query parameters carrying an empty daytime string. -/
def emptyDaytimeParams : ForecastQueryParameters := { daytime := some "" }

/-! ## Correctness of `search_forecast` -/

/-- In a sorted series, timestamps are monotone in the index. -/
lemma sorted_get_mono {fs : List Forecast} (hs : SortedSeries fs)
    {i j : ℕ} {a b : Forecast} (hij : i ≤ j)
    (ha : fs.get? i = some a) (hb : fs.get? j = some b) :
    a.time ≤ b.time := by
  rcases List.get?_eq_some.mp ha with ⟨hi, rfl⟩
  rcases List.get?_eq_some.mp hb with ⟨hj, rfl⟩
  rcases Nat.lt_or_ge i j with hlt | hge
  · exact List.pairwise_iff_get.mp hs ⟨i, hi⟩ ⟨j, hj⟩ hlt
  · have : i = j := Nat.le_antisymm hij hge
    subst this
    exact le_refl _

/-- In a sorted series the entries with timestamp `≤ t` are exactly the
first `eligCount` entries. -/
lemma elig_iff {t : ℕ} : ∀ {fs : List Forecast}, SortedSeries fs →
    ∀ i f, fs.get? i = some f → (f.time ≤ t ↔ i < eligCount fs t) := by
  intro fs
  induction fs with
  | nil => intro _ i f hf; simp at hf
  | cons g rest ih =>
    intro hs i f hf
    rcases List.pairwise_cons.mp hs with ⟨hg, hrest⟩
    by_cases hgt : g.time ≤ t
    · have hcount : eligCount (g :: rest) t = eligCount rest t + 1 := by
        simp [eligCount, List.filter_cons, hgt]
      cases i with
      | zero =>
        simp only [List.get?] at hf
        cases hf
        simp [hcount, hgt]
      | succ i =>
        simp only [List.get?] at hf
        rw [hcount]
        simpa [Nat.succ_lt_succ_iff] using ih hrest i f hf
    · have hall : ∀ x ∈ g :: rest, ¬ x.time ≤ t := by
        intro x hx
        rcases List.mem_cons.mp hx with rfl | hx
        · exact hgt
        · intro hxle; exact hgt (le_trans (hg x hx) hxle)
      have hcount : eligCount (g :: rest) t = 0 := by
        have : (g :: rest).filter (fun f => f.time ≤ t) = [] := by
          rw [List.filter_eq_nil_iff]
          intro a ha
          simpa using hall a ha
        simp [eligCount, this]
      rw [hcount]
      have hmem : f ∈ g :: rest := List.get?_mem hf
      simp [hall f hmem]

/-- `eligCount` never exceeds the series length. -/
lemma eligCount_le_length (fs : List Forecast) (t : ℕ) :
    eligCount fs t ≤ fs.length :=
  List.length_filter_le _ fs

/-- Loop-invariant correctness of `searchLoop`: if everything left of
`l` is eligible (timestamp `≤ t`), everything right of `r` is not, and
`result` is the entry just left of `l` (if any), then the loop answers
the entry at the last eligible index. -/
lemma searchLoop_eq {fs : List Forecast} {t : ℕ} (hs : SortedSeries fs) :
    ∀ n (l r : Int) (result : Option Forecast),
      (r + 1 - l).toNat = n →
      0 ≤ l → l ≤ r + 1 → r ≤ (fs.length : Int) - 1 →
      (∀ i f, fs.get? i = some f → (i : Int) < l → f.time ≤ t) →
      (∀ i f, fs.get? i = some f → r < (i : Int) → t < f.time) →
      result = (if 0 < l then fs.get? (l - 1).toNat else none) →
      searchLoop fs t l r result =
        (if eligCount fs t = 0 then none else fs.get? (eligCount fs t - 1)) := by
  intro n
  induction n using Nat.strong_induction_on with
  | _ n ih =>
    intro l r result hn hl hlr hr hlow hhigh hres
    rw [searchLoop.eq_def]
    by_cases hle : l ≤ r
    · rw [if_pos hle]
      have hm0 : 0 ≤ (l + r) / 2 := by omega
      have hml : l ≤ (l + r) / 2 := by omega
      have hmr : (l + r) / 2 ≤ r := by omega
      have hmlen : ((l + r) / 2).toNat < fs.length := by omega
      rcases hget : fs.get? ((l + r) / 2).toNat with _ | f
      · exact absurd (List.get?_eq_none.mp hget) (by omega)
      · simp only [hget]
        by_cases hft : f.time ≤ t
        · rw [if_pos hft]
          refine ih ((r + 1 - ((l + r) / 2 + 1)).toNat) (by omega) _ r (some f)
            rfl (by omega) (by omega) hr ?_ hhigh ?_
          · intro i f2 hf2 hilt
            have hile : i ≤ ((l + r) / 2).toNat := by omega
            exact le_trans (sorted_get_mono hs hile hf2 hget) hft
          · rw [if_pos (by omega : (0:Int) < (l + r) / 2 + 1)]
            have : ((l + r) / 2 + 1 - 1).toNat = ((l + r) / 2).toNat := by omega
            rw [this, hget]
        · rw [if_neg hft]
          refine ih ((l + r) / 2 - 1 + 1 - l).toNat (by omega) l ((l + r) / 2 - 1)
            result rfl hl (by omega) (by omega) hlow ?_ hres
          intro i f2 hf2 hgt
          have hmle : ((l + r) / 2).toNat ≤ i := by omega
          exact lt_of_lt_of_le (Nat.lt_of_not_le hft)
            (sorted_get_mono hs hmle hget hf2)
    · rw [if_neg hle]
      -- at exit `l = r + 1`, so the invariants cover every index
      have hexit : l = r + 1 := by omega
      have hiff : ∀ i f, fs.get? i = some f → ((i : Int) < l ↔ i < eligCount fs t) := by
        intro i f hf
        constructor
        · intro hil
          exact (elig_iff hs i f hf).mp (hlow i f hf hil)
        · intro helig
          by_contra hnot
          have : t < f.time := hhigh i f hf (by omega)
          exact absurd ((elig_iff hs i f hf).mpr helig) (by omega)
      by_cases hl0 : l = 0
      · subst hl0
        rw [hres, if_neg (by omega)]
        rw [if_pos ?_]
        by_contra hne
        have hpos : 0 < eligCount fs t := Nat.pos_of_ne_zero hne
        have hlen : 0 < fs.length := lt_of_lt_of_le hpos (eligCount_le_length fs t)
        rcases List.get?_eq_some.mpr ⟨hlen, rfl⟩ with hf0
        have := (hiff 0 _ hf0).mpr ((elig_iff hs 0 _ hf0).mp ?_)
        · omega
        · exact (elig_iff hs 0 _ hf0).mpr hpos
      · have hlpos : 0 < l := by omega
        have hllen : l.toNat ≤ fs.length := by omega
        -- index `l - 1` is eligible, so `l - 1 < eligCount`
        have hprevlt : (l - 1).toNat < fs.length := by omega
        rcases List.get?_eq_some.mpr ⟨hprevlt, rfl⟩ with hfprev
        have h1 : (l - 1).toNat < eligCount fs t := by
          have := (hiff (l - 1).toNat _ hfprev).mp (by omega)
          omega
        -- no index `≥ l` is eligible, so `eligCount ≤ l`
        have h2 : eligCount fs t ≤ l.toNat := by
          by_contra hgt
          have hllt : l.toNat < fs.length :=
            lt_of_lt_of_le (by omega) (eligCount_le_length fs t)
          rcases List.get?_eq_some.mpr ⟨hllt, rfl⟩ with hfl
          have := (hiff l.toNat _ hfl).mpr (by omega)
          omega
        have hcnt : eligCount fs t = l.toNat := by omega
        rw [hres, if_pos hlpos, if_neg (by omega), hcnt]
        congr 1
        omega

/-- For a sorted series, `search_forecast` answers the entry at the
greatest index whose timestamp is `≤ t` (or `none` when there is none). -/
lemma search_forecast_eq {fs : List Forecast} {t : ℕ} (hs : SortedSeries fs) :
    search_forecast fs t =
      (if eligCount fs t = 0 then none else fs.get? (eligCount fs t - 1)) := by
  unfold search_forecast
  by_cases hnil : fs = []
  · subst hnil
    simp [eligCount]
  · rw [if_neg hnil]
    refine searchLoop_eq hs _ 0 ((fs.length : Int) - 1) none rfl (by omega) ?_
      (by omega) ?_ ?_ (by simp)
    · have : fs.length ≠ 0 := fun h => hnil (List.length_eq_zero.mp h)
      omega
    · intro i f _ hneg
      omega
    · intro i f hf hgt
      rcases List.get?_eq_some.mp hf with ⟨hi, _⟩
      omega

/-- C1: for a forecast list sorted non-decreasing by timestamp and any
query time `t`, `search_forecast` returns none on the empty list (without
raising), returns none when every entry is strictly after `t`, returns
only entries of the list with timestamp `≤ t` that is maximal among the
entries `≤ t`, and returns some entry whenever one with timestamp `≤ t`
exists. -/
theorem C1_findPreceding_correct (fs : List Forecast) (t : ℕ)
    (hs : SortedSeries fs) :
    (fs = [] → search_forecast fs t = none) ∧
    ((∀ f ∈ fs, t < f.time) → search_forecast fs t = none) ∧
    (∀ f, search_forecast fs t = some f →
      f ∈ fs ∧ f.time ≤ t ∧ ∀ g ∈ fs, g.time ≤ t → g.time ≤ f.time) ∧
    ((∃ f ∈ fs, f.time ≤ t) → ∃ f, search_forecast fs t = some f) := by
  refine ⟨?_, ?_, ?_, ?_⟩
  · intro hnil
    simp [search_forecast, hnil]
  · intro hall
    have hcnt : eligCount fs t = 0 := by
      have : fs.filter (fun f => f.time ≤ t) = [] := by
        rw [List.filter_eq_nil_iff]
        intro a ha
        simpa using not_le_of_lt (hall a ha)
      simp [eligCount, this]
    rw [search_forecast_eq hs, if_pos hcnt]
  · intro f hf
    rw [search_forecast_eq hs] at hf
    by_cases hcnt : eligCount fs t = 0
    · rw [if_pos hcnt] at hf
      exact absurd hf (by simp)
    · rw [if_neg hcnt] at hf
      refine ⟨List.get?_mem hf, ?_, ?_⟩
      · exact (elig_iff hs _ f hf).mpr (by omega)
      · intro g hg hgle
        rcases List.mem_iff_get?.mp hg with ⟨i, hgi⟩
        have hik : i < eligCount fs t := (elig_iff hs i g hgi).mp hgle
        exact sorted_get_mono hs (by omega) hgi hf
  · rintro ⟨g, hg, hgle⟩
    rcases List.mem_iff_get?.mp hg with ⟨i, hgi⟩
    have hik : i < eligCount fs t := (elig_iff hs i g hgi).mp hgle
    have hcnt : eligCount fs t ≠ 0 := by omega
    have hlt : eligCount fs t - 1 < fs.length := by
      have := eligCount_le_length fs t
      omega
    rcases List.get?_eq_some.mpr ⟨hlt, rfl⟩ with hfk
    exact ⟨_, by rw [search_forecast_eq hs, if_neg hcnt, hfk]⟩

/-- Witness for C1 at the concrete sorted series and `t` = 00:20. -/
theorem C1_findPreceding_correct_witness :
    SortedSeries sampleSeries ∧
    ((sampleSeries = [] → search_forecast sampleSeries 1200 = none) ∧
    ((∀ f ∈ sampleSeries, 1200 < f.time) → search_forecast sampleSeries 1200 = none) ∧
    (∀ f, search_forecast sampleSeries 1200 = some f →
      f ∈ sampleSeries ∧ f.time ≤ 1200 ∧
        ∀ g ∈ sampleSeries, g.time ≤ 1200 → g.time ≤ f.time) ∧
    ((∃ f ∈ sampleSeries, f.time ≤ 1200) →
      ∃ f, search_forecast sampleSeries 1200 = some f)) :=
  ⟨by decide, C1_findPreceding_correct sampleSeries 1200 (by decide)⟩

/-- C5: on a sorted series containing entries with timestamp exactly
`t`, `search_forecast` returns, deterministically, the entry at the
greatest index with timestamp `= t`. -/
theorem C5_tie_break_rightmost (fs : List Forecast) (t : ℕ)
    (hs : SortedSeries fs)
    (hex : ∃ i, ∃ h : i < fs.length, (fs.get ⟨i, h⟩).time = t) :
    ∃ j, ∃ hj : j < fs.length,
      search_forecast fs t = some (fs.get ⟨j, hj⟩) ∧
      (fs.get ⟨j, hj⟩).time = t ∧
      ∀ i, ∀ hi : i < fs.length, (fs.get ⟨i, hi⟩).time = t → i ≤ j := by
  rcases hex with ⟨i, hi, hit⟩
  have hgi : fs.get? i = some (fs.get ⟨i, hi⟩) := List.get?_eq_some.mpr ⟨hi, rfl⟩
  have hik : i < eligCount fs t := (elig_iff hs i _ hgi).mp (le_of_eq hit)
  have hcnt : eligCount fs t ≠ 0 := by omega
  have hlt : eligCount fs t - 1 < fs.length := by
    have := eligCount_le_length fs t
    omega
  refine ⟨eligCount fs t - 1, hlt, ?_, ?_, ?_⟩
  · rw [search_forecast_eq hs, if_neg hcnt]
    exact (List.get?_eq_some.mpr ⟨hlt, rfl⟩)
  · have hkle : (fs.get ⟨eligCount fs t - 1, hlt⟩).time ≤ t :=
      (elig_iff hs _ _ (List.get?_eq_some.mpr ⟨hlt, rfl⟩)).mpr (by omega)
    have hkge : t ≤ (fs.get ⟨eligCount fs t - 1, hlt⟩).time := by
      calc t = (fs.get ⟨i, hi⟩).time := hit.symm
        _ ≤ _ := sorted_get_mono hs (by omega) hgi
              (List.get?_eq_some.mpr ⟨hlt, rfl⟩)
    omega
  · intro i2 hi2 hit2
    have : i2 < eligCount fs t :=
      (elig_iff hs i2 _ (List.get?_eq_some.mpr ⟨hi2, rfl⟩)).mp (le_of_eq hit2)
    omega

/-- Witness for C5 at a series with two entries at exactly `t = 5`. -/
theorem C5_tie_break_rightmost_witness :
    (SortedSeries sampleTieSeries ∧
      ∃ i, ∃ h : i < sampleTieSeries.length,
        (sampleTieSeries.get ⟨i, h⟩).time = 5) ∧
    (∃ j, ∃ hj : j < sampleTieSeries.length,
      search_forecast sampleTieSeries 5 = some (sampleTieSeries.get ⟨j, hj⟩) ∧
      (sampleTieSeries.get ⟨j, hj⟩).time = 5 ∧
      ∀ i, ∀ hi : i < sampleTieSeries.length,
        (sampleTieSeries.get ⟨i, hi⟩).time = 5 → i ≤ j) :=
  ⟨⟨by decide, 0, by decide, by decide⟩,
    C5_tie_break_rightmost sampleTieSeries 5 (by decide) ⟨0, by decide, by decide⟩⟩

/-- Membership is preserved through the loop: any returned forecast was
read from the list (or was the incoming `result`). -/
lemma searchLoop_mem {fs : List Forecast} {t : ℕ} :
    ∀ n (l r : Int) (result : Option Forecast),
      (r + 1 - l).toNat = n →
      (∀ f, result = some f → f ∈ fs) →
      ∀ f, searchLoop fs t l r result = some f → f ∈ fs := by
  intro n
  induction n using Nat.strong_induction_on with
  | _ n ih =>
    intro l r result hn hres f hrun
    rw [searchLoop.eq_def] at hrun
    by_cases hle : l ≤ r
    · rw [if_pos hle] at hrun
      rcases hget : fs.get? ((l + r) / 2).toNat with _ | g
      · simp only [hget] at hrun
        exact absurd hrun (by simp)
      · simp only [hget] at hrun
        by_cases hgt : g.time ≤ t
        · rw [if_pos hgt] at hrun
          refine ih ((r + 1 - ((l + r) / 2 + 1)).toNat) (by omega) _ _ _ rfl ?_ f hrun
          intro f2 hf2
          cases hf2
          exact List.get?_mem hget
        · rw [if_neg hgt] at hrun
          exact ih ((l + r) / 2 - 1 + 1 - l).toNat (by omega) _ _ _ rfl hres f hrun
    · rw [if_neg hle] at hrun
      exact hres f hrun

/-- C10: `search_forecast` is a total function — the binary-search loop
terminates on every input (its `termination_by` measure `r + 1 - l`
strictly decreases each iteration), and the result is always either
`none` or a forecast taken from the input list, sorted or not. -/
theorem C10_search_total (fs : List Forecast) (t : ℕ) :
    search_forecast fs t = none ∨
    ∃ f, search_forecast fs t = some f ∧ f ∈ fs := by
  rcases hrun : search_forecast fs t with _ | f
  · exact Or.inl rfl
  · refine Or.inr ⟨f, rfl, ?_⟩
    unfold search_forecast at hrun
    by_cases hnil : fs = []
    · rw [if_pos hnil] at hrun
      exact absurd hrun (by simp)
    · rw [if_neg hnil] at hrun
      exact searchLoop_mem _ 0 ((fs.length : Int) - 1) none rfl (by simp) f hrun

/-! ## Tracking-table operations -/

/-- Unpacking a successful `Option`-monadic `mapM`: lengths agree and
each output is produced from the input at the same position. -/
lemma mapM_some {α β : Type} {g : α → Option β} :
    ∀ {xs : List α} {ys : List β}, xs.mapM g = some ys →
      ys.length = xs.length ∧
      ∀ i x, xs.get? i = some x → ∃ y, g x = some y ∧ ys.get? i = some y := by
  intro xs
  induction xs with
  | nil =>
    intro ys h
    simp only [List.mapM_nil, pure, Option.some.injEq] at h
    subst h
    exact ⟨rfl, by simp⟩
  | cons a rest ih =>
    intro ys h
    rw [List.mapM_cons] at h
    rcases hga : g a with _ | y
    · rw [hga] at h
      simp only [Option.bind_eq_bind, Option.none_bind] at h
      exact absurd h (by simp)
    · rw [hga] at h
      simp only [Option.bind_eq_bind, Option.some_bind] at h
      rcases hrest : rest.mapM g with _ | zs
      · rw [hrest] at h
        simp only [Option.none_bind] at h
        exact absurd h (by simp)
      · rw [hrest] at h
        simp only [Option.some_bind, Option.pure_def, Option.some.injEq] at h
        subst h
        rcases ih hrest with ⟨hlen, hpt⟩
        refine ⟨by simp [hlen], ?_⟩
        intro i x hx
        cases i with
        | zero =>
          simp only [List.get?] at hx
          cases hx
          exact ⟨y, hga, rfl⟩
        | succ i =>
          simp only [List.get?] at hx ⊢
          exact hpt i x hx

/-- `set_city_forecasts` leaves every label and every location exactly
where it was; only the matching entry's `forecasts` is replaced. -/
lemma set_city_get? (table : TrackingTable) (city : String) (fs : List Forecast)
    (i : ℕ) :
    (set_city_forecasts table city fs).get? i =
      (table.get? i).map
        (fun p => if p.1 = city then (p.1, { p.2 with forecasts := fs }) else p) := by
  simp [set_city_forecasts, List.get?_map]

/-- If a label is absent from the front list, lookup moves on to the
back list. -/
lemma lookup_append_of_none {k : String} {xs : TrackingTable}
    (ys : TrackingTable) (h : xs.lookup k = none) :
    (xs ++ ys).lookup k = ys.lookup k := by
  induction xs with
  | nil => simp
  | cons a rest ih =>
    simp only [List.lookup, List.cons_append] at h ⊢
    rcases hk : (k == a.1) with _ | _
    · simp only [hk] at h ⊢
      exact ih h
    · simp [hk] at h

/-- Lookup after `set_city_forecasts`: the looked-up value is the old
one with its series replaced when the keys match. -/
lemma lookup_set_city (table : TrackingTable) (city : String) (fs : List Forecast) :
    (set_city_forecasts table city fs).lookup city =
      (table.lookup city).map (fun cwd => { cwd with forecasts := fs }) := by
  induction table with
  | nil => simp [set_city_forecasts]
  | cons a rest ih =>
    obtain ⟨k, v⟩ := a
    simp only [set_city_forecasts, List.map_cons] at ih ⊢
    by_cases hk : k = city
    · subst hk
      have hcond : ((k, v).1 = k) := rfl
      rw [if_pos hcond]
      simp [List.lookup]
    · rw [if_neg hk]
      simp only [List.lookup]
      have hbeq : (city == k) = false := by
        simp [Ne.symm hk]
      rw [hbeq]
      exact ih

/-- A label absent from a table occurs zero times among its keys. -/
lemma countP_eq_zero_of_lookup_none {k : String} :
    ∀ {table : TrackingTable}, table.lookup k = none →
      table.countP (fun p => p.1 = k) = 0 := by
  intro table
  induction table with
  | nil => intro _; simp
  | cons a rest ih =>
    intro h
    simp only [List.lookup] at h
    rcases hk : (k == a.1) with _ | _
    · simp only [hk] at h
      have hne : ¬ a.1 = k := by
        intro he
        simp [he] at hk
      simp only [List.countP_cons, decide_eq_true_eq]
      simp [hne, ih h]
    · simp [hk] at h

/-- `set_city_forecasts` does not change how often a label occurs. -/
lemma countP_set_city (table : TrackingTable) (city k : String)
    (fs : List Forecast) :
    (set_city_forecasts table city fs).countP (fun p => p.1 = k) =
      table.countP (fun p => p.1 = k) := by
  simp only [set_city_forecasts, List.countP_map]
  apply List.countP_congr
  intro p _
  by_cases hp : p.1 = city <;> simp [hp]

/-- Unfolding `update_forecasts_for_city` once the city is found. -/
lemma update_for_city_eq (provider : Provider) (table : TrackingTable)
    (city : String) (cwd : CityWeatherData) (h : table.lookup city = some cwd) :
    update_forecasts_for_city provider table city =
      ((provider [cwd.location.latitude] [cwd.location.longitude]).get? 0).bind
        (fun response => (parse_forecasts response).bind
          (fun fs => some (set_city_forecasts table city fs))) := by
  rw [update_forecasts_for_city, h]
  rfl

/-- C2: adding the same label twice yields exactly one tracked entry —
the first call inserts the label with the given coordinates (and an
empty series, which the immediate refresh then fills), the second call
answers 409 Conflict and returns the table unchanged, so the state after
both calls is the state after the first call alone. -/
theorem C2_add_city_idempotent (provider : Provider) (table : TrackingTable)
    (city : String) (location : Location) (e1 e2 : Option ApiError)
    (t1 t2 : TrackingTable)
    (hfresh : table.lookup city = none)
    (h1 : add_city provider table city location = (e1, t1))
    (h2 : add_city provider t1 city location = (e2, t2)) :
    e2 = some .conflict ∧ t2 = t1 ∧
    t1.countP (fun p => p.1 = city) = 1 ∧
    ∃ cwd, t1.lookup city = some cwd ∧ cwd.location = location := by
  have hinserted :
      (table ++ [(city, ({ location := location, forecasts := [] } : CityWeatherData))]).lookup city
        = some { location := location, forecasts := [] } := by
    rw [lookup_append_of_none _ hfresh]
    simp [List.lookup]
  have hcount :
      (table ++ [(city, ({ location := location, forecasts := [] } : CityWeatherData))]).countP
        (fun p => p.1 = city) = 1 := by
    rw [List.countP_append, countP_eq_zero_of_lookup_none hfresh]
    simp
  rw [add_city, if_pos (by simp [hfresh])] at h1
  have hmain : t1.lookup city ≠ none ∧
      t1.countP (fun p => p.1 = city) = 1 ∧
      ∃ cwd, t1.lookup city = some cwd ∧ cwd.location = location := by
    rcases hupd : update_forecasts_for_city provider
        (table ++ [(city, ({ location := location, forecasts := [] } : CityWeatherData))]) city
        with _ | updated
    · simp only [hupd] at h1
      injection h1 with he ht
      subst ht
      exact ⟨by simp [hinserted], hcount,
        ⟨{ location := location, forecasts := [] }, hinserted, rfl⟩⟩
    · simp only [hupd] at h1
      injection h1 with he ht
      subst ht
      rw [update_for_city_eq provider _ city _ hinserted] at hupd
      rcases hresp : (provider [location.latitude] [location.longitude]).get? 0
          with _ | response
      · rw [hresp, Option.none_bind] at hupd
        exact absurd hupd (by simp)
      · rw [hresp, Option.some_bind] at hupd
        rcases hparse : parse_forecasts response with _ | fs
        · rw [hparse, Option.none_bind] at hupd
          exact absurd hupd (by simp)
        · rw [hparse, Option.some_bind] at hupd
          injection hupd with hupd2
          subst hupd2
          refine ⟨?_, ?_, ?_⟩
          · rw [lookup_set_city, hinserted]
            simp
          · rw [countP_set_city, hcount]
          · exact ⟨{ location := location, forecasts := fs },
              by rw [lookup_set_city, hinserted]; rfl, rfl⟩
  rcases hmain with ⟨hne, hcnt1, hloc⟩
  rw [add_city,
    if_neg (by simpa [Option.isNone_iff_eq_none] using hne)] at h2
  injection h2 with he ht
  subst he
  subst ht
  exact ⟨rfl, rfl, hcnt1, hloc⟩

/-- Positional unpacking of a successful `update_forecasts`: the `i`-th
entry's new series is parsed from the `i`-th response to the batched
coordinate lists built in table iteration order. -/
lemma update_forecasts_pointwise (provider : Provider) (table t2 : TrackingTable)
    (h : update_forecasts provider table = some t2) :
    t2.length = table.length ∧
    ∀ i city cwd, table.get? i = some (city, cwd) →
      ∃ response fs,
        (provider (table.map fun p => p.2.location.latitude)
          (table.map fun p => p.2.location.longitude)).get? i = some response ∧
        parse_forecasts response = some fs ∧
        t2.get? i = some (city, { cwd with forecasts := fs }) := by
  rw [update_forecasts] at h
  rcases mapM_some h with ⟨hlen, hpt⟩
  refine ⟨by simpa using hlen, ?_⟩
  intro i city cwd hti
  rcases List.get?_eq_some.mp hti with ⟨hilen, _⟩
  rcases hpt i i (List.get?_range hilen) with ⟨y, hgy, ht2i⟩
  simp only [hti, Option.bind_eq_bind, Option.some_bind] at hgy
  rcases hresp : (provider (table.map fun p => p.2.location.latitude)
      (table.map fun p => p.2.location.longitude)).get? i with _ | response
  · rw [hresp] at hgy
    simp only [Option.none_bind] at hgy
    exact absurd hgy (by simp)
  · rw [hresp] at hgy
    simp only [Option.some_bind] at hgy
    rcases hparse : parse_forecasts response with _ | fs
    · rw [hparse] at hgy
      simp only [Option.none_bind] at hgy
      exact absurd hgy (by simp)
    · rw [hparse] at hgy
      simp only [Option.some_bind, Option.some.injEq] at hgy
      subst hgy
      exact ⟨response, fs, hresp, hparse, ht2i⟩

/-- Witness for C2: fresh table, then two `add_city` calls for the same
label (with a provider whose refresh fails, leaving the inserted empty
series in place). -/
theorem C2_add_city_idempotent_witness :
    ([] : TrackingTable).lookup "Paris" = none ∧
    ∃ e1 t1 e2 t2,
      add_city failingProvider [] "Paris" { latitude := 4885/100, longitude := 235/100 } = (e1, t1) ∧
      add_city failingProvider t1 "Paris" { latitude := 4885/100, longitude := 235/100 } = (e2, t2) ∧
      (e2 = some .conflict ∧ t2 = t1 ∧
        t1.countP (fun p => p.1 = "Paris") = 1 ∧
        ∃ cwd, t1.lookup "Paris" = some cwd ∧
          cwd.location = { latitude := 4885/100, longitude := 235/100 }) :=
  ⟨rfl, _, _, _, _, rfl, rfl,
    C2_add_city_idempotent failingProvider [] "Paris" _ _ _ _ _ rfl rfl rfl⟩

/-- C3: a successful `update_forecasts` keeps the table length and, for
every position `i`, stores at position `i` the series parsed from the
`i`-th provider response to the batched latitude/longitude lists built
in the same iteration order — each location gets its own series, never a
neighbor's.  (The provider returning positionally-corresponding
responses is the stated assumption; it is the meaning of the `Provider`
function argument.) -/
theorem C3_refreshAll_positional (provider : Provider) (table t2 : TrackingTable)
    (h : update_forecasts provider table = some t2) :
    t2.length = table.length ∧
    ∀ i city cwd, table.get? i = some (city, cwd) →
      ∃ response fs,
        (provider (table.map fun p => p.2.location.latitude)
          (table.map fun p => p.2.location.longitude)).get? i = some response ∧
        parse_forecasts response = some fs ∧
        t2.get? i = some (city, { cwd with forecasts := fs }) :=
  update_forecasts_pointwise provider table t2 h

/-- Witness for C3 at the concrete one-city table and provider. -/
theorem C3_refreshAll_positional_witness :
    update_forecasts sampleProvider sampleTable = some sampleRefreshed ∧
    (sampleRefreshed.length = sampleTable.length ∧
    ∀ i city cwd, sampleTable.get? i = some (city, cwd) →
      ∃ response fs,
        (sampleProvider (sampleTable.map fun p => p.2.location.latitude)
          (sampleTable.map fun p => p.2.location.longitude)).get? i = some response ∧
        parse_forecasts response = some fs ∧
        sampleRefreshed.get? i = some (city, { cwd with forecasts := fs })) :=
  ⟨rfl, C3_refreshAll_positional sampleProvider sampleTable sampleRefreshed rfl⟩

/-- Pointwise-projection equality lifts to `List.map` equality. -/
lemma map_proj_eq {α β : Type} (f : α → β) (a b : List α)
    (h : ∀ i, (a.get? i).map f = (b.get? i).map f) : a.map f = b.map f := by
  apply List.ext_get?
  intro i
  rw [List.get?_map, List.get?_map]
  exact h i

/-- `set_city_forecasts` keeps every label. -/
lemma set_city_map_fst (table : TrackingTable) (city : String)
    (fs : List Forecast) :
    (set_city_forecasts table city fs).map Prod.fst = table.map Prod.fst := by
  rw [set_city_forecasts, List.map_map]
  apply List.map_congr_left
  intro p _
  by_cases hp : p.1 = city <;> simp [hp]

/-- `set_city_forecasts` keeps every location. -/
lemma set_city_map_loc (table : TrackingTable) (city : String)
    (fs : List Forecast) :
    (set_city_forecasts table city fs).map (fun p => p.2.location) =
      table.map (fun p => p.2.location) := by
  rw [set_city_forecasts, List.map_map]
  apply List.map_congr_left
  intro p _
  by_cases hp : p.1 = city <;> simp [hp]

/-- C9: neither a successful bulk refresh (`update_forecasts`) nor a
successful single-city refresh (`update_forecasts_for_city`) changes any
label or any location's coordinates — the label sequence and coordinate
sequence of the table are exactly what they were; only `forecasts`
fields are replaced. -/
theorem C9_refresh_preserves_coordinates (provider : Provider)
    (table : TrackingTable) (city : String) (t2 t3 : TrackingTable)
    (h1 : update_forecasts provider table = some t2)
    (h2 : update_forecasts_for_city provider table city = some t3) :
    (t2.map Prod.fst = table.map Prod.fst ∧
     t2.map (fun p => p.2.location) = table.map (fun p => p.2.location)) ∧
    (t3.map Prod.fst = table.map Prod.fst ∧
     t3.map (fun p => p.2.location) = table.map (fun p => p.2.location)) := by
  rcases update_forecasts_pointwise provider table t2 h1 with ⟨hlen, hpt⟩
  have hpoint : ∀ (β : Type) (f : String × CityWeatherData → β),
      (∀ city cwd fs, f (city, { cwd with forecasts := fs }) = f (city, cwd)) →
      t2.map f = table.map f := by
    intro β f hf
    apply map_proj_eq
    intro i
    rcases hti : table.get? i with _ | p
    · have : t2.get? i = none := by
        rw [List.get?_eq_none] at hti ⊢
        omega
      rw [this]
    · obtain ⟨c, cwd⟩ := p
      rcases hpt i c cwd hti with ⟨response, fs, _, _, ht2i⟩
      rw [ht2i]
      simp [hf]
  constructor
  · exact ⟨hpoint String Prod.fst (fun _ _ _ => rfl),
      hpoint Location (fun p => p.2.location) (fun _ _ _ => rfl)⟩
  · rcases hcity : table.lookup city with _ | cwd0
    · rw [update_forecasts_for_city, hcity] at h2
      simp only [Option.bind_eq_bind, Option.none_bind] at h2
      exact absurd h2 (by simp)
    · rw [update_for_city_eq provider table city cwd0 hcity] at h2
      rcases hresp : (provider [cwd0.location.latitude] [cwd0.location.longitude]).get? 0
          with _ | response
      · rw [hresp, Option.none_bind] at h2
        exact absurd h2 (by simp)
      · rw [hresp, Option.some_bind] at h2
        rcases hparse : parse_forecasts response with _ | fs
        · rw [hparse, Option.none_bind] at h2
          exact absurd h2 (by simp)
        · rw [hparse, Option.some_bind] at h2
          injection h2 with h2e
          subst h2e
          exact ⟨set_city_map_fst table city fs, set_city_map_loc table city fs⟩

/-- Witness for C9 at the concrete one-city table and provider. -/
theorem C9_refresh_preserves_coordinates_witness :
    update_forecasts sampleProvider sampleTable = some sampleRefreshed ∧
    update_forecasts_for_city sampleProvider sampleTable "A" = some sampleRefreshed ∧
    ((sampleRefreshed.map Prod.fst = sampleTable.map Prod.fst ∧
      sampleRefreshed.map (fun p => p.2.location) = sampleTable.map (fun p => p.2.location)) ∧
     (sampleRefreshed.map Prod.fst = sampleTable.map Prod.fst ∧
      sampleRefreshed.map (fun p => p.2.location) = sampleTable.map (fun p => p.2.location))) :=
  ⟨rfl, rfl,
    C9_refresh_preserves_coordinates sampleProvider sampleTable "A"
      sampleRefreshed sampleRefreshed rfl rfl⟩

/-- C6: in a parsed series the `i`-th fine-grained (15-minute) forecast
carries the coarse (hourly) pressure value at index `i / 4` — the ratio
`coarse_interval / fine_interval = 3600 s / 900 s = 4` — so each hourly
value is broadcast across the four quarter-hour samples of its hour. -/
theorem C6_pressure_broadcast (response : ApiResponse) (fs : List Forecast)
    (h : parse_forecasts response = some fs) :
    ∀ i f, fs.get? i = some f →
      ∃ p, response.pressure.get? (i / 4) = some p ∧ f.data.pressure = some p := by
  rw [parse_forecasts] at h
  rcases mapM_some h with ⟨hlen, hpt⟩
  intro i f hf
  rcases List.get?_eq_some.mp hf with ⟨hi, _⟩
  have hitr : i <
      (time_range response.m15Time response.m15TimeEnd response.m15Interval).length := by
    have hlen2 : fs.length =
        (time_range response.m15Time response.m15TimeEnd response.m15Interval).length := by
      simpa using hlen
    omega
  rcases hpt i i (List.get?_range hitr) with ⟨y, hgy, hfy⟩
  simp only [Option.bind_eq_bind, Option.bind_eq_some, Option.some.injEq] at hgy
  obtain ⟨t, h1, te, h2, hu, h3, pc, h4, ws, h5, wd, h6, pr, h7, hfin⟩ := hgy
  rw [hf] at hfy
  injection hfy with hfe
  subst hfe
  subst hfin
  exact ⟨pr, h7, rfl⟩

/-- Witness for C6 at the concrete response (pressure list `[990]`
broadcast over both quarter-hour samples). -/
theorem C6_pressure_broadcast_witness :
    parse_forecasts sampleResponse = some sampleParsed ∧
    ∀ i f, sampleParsed.get? i = some f →
      ∃ p, sampleResponse.pressure.get? (i / 4) = some p ∧
        f.data.pressure = some p :=
  ⟨rfl, C6_pressure_broadcast sampleResponse sampleParsed rfl⟩

/-- Lookup behaviour of the projection: a field key is present exactly
when its flag `is True`, and then carries the forecast's value for that
field (possibly a null value — present, not omitted). -/
lemma filtered_lookup (p : ForecastQueryParameters) (d : WeatherData) :
    (filtered_data p d).lookup "temperature" =
      (if p.temperature = some true then some d.temperature else none) ∧
    (filtered_data p d).lookup "humidity" =
      (if p.humidity = some true then some d.humidity else none) ∧
    (filtered_data p d).lookup "precipitation" =
      (if p.precipitation = some true then some d.precipitation else none) ∧
    (filtered_data p d).lookup "pressure" =
      (if p.pressure = some true then some d.pressure else none) ∧
    (filtered_data p d).lookup "wind_speed" =
      (if p.wind_speed = some true then some d.wind_speed else none) ∧
    (filtered_data p d).lookup "wind_direction" =
      (if p.wind_direction = some true then some d.wind_direction else none) := by
  by_cases h1 : p.temperature = some true <;>
    by_cases h2 : p.humidity = some true <;>
      by_cases h3 : p.precipitation = some true <;>
        by_cases h4 : p.pressure = some true <;>
          by_cases h5 : p.wind_speed = some true <;>
            by_cases h6 : p.wind_direction = some true <;>
              simp [filtered_data, List.lookup, h1, h2, h3, h4, h5, h6]

/-- C7: a successful point-in-time query answers exactly the projection
of the found forecast's sample onto the requested field set — a field
key is present in the record iff its flag is true (unrequested fields
are omitted entirely, requested ones are present even when their value
is null), and the all-default parameter set selects all six fields. -/
theorem C7_field_projection (now dayStart : ℕ) (table : TrackingTable)
    (city : String) (p : ForecastQueryParameters)
    (r : List (String × Option ℚ))
    (h : get_forecast now dayStart table city p = .ok r) :
    (∃ cwd forecast_datetime f,
      table.lookup city = some cwd ∧
      resolve_query_time now dayStart p.daytime = .ok forecast_datetime ∧
      search_forecast cwd.forecasts forecast_datetime = some f ∧
      r = filtered_data p f.data ∧
      r.lookup "temperature" =
        (if p.temperature = some true then some f.data.temperature else none) ∧
      r.lookup "humidity" =
        (if p.humidity = some true then some f.data.humidity else none) ∧
      r.lookup "precipitation" =
        (if p.precipitation = some true then some f.data.precipitation else none) ∧
      r.lookup "pressure" =
        (if p.pressure = some true then some f.data.pressure else none) ∧
      r.lookup "wind_speed" =
        (if p.wind_speed = some true then some f.data.wind_speed else none) ∧
      r.lookup "wind_direction" =
        (if p.wind_direction = some true then some f.data.wind_direction else none)) ∧
    (∀ d : WeatherData, filtered_data {} d =
      [("temperature", d.temperature), ("humidity", d.humidity),
       ("precipitation", d.precipitation), ("pressure", d.pressure),
       ("wind_speed", d.wind_speed), ("wind_direction", d.wind_direction)]) := by
  constructor
  · rw [get_forecast] at h
    rcases hcwd : table.lookup city with _ | cwd
    · simp only [hcwd] at h
      exact absurd h (by simp)
    · simp only [hcwd] at h
      rcases hrt : resolve_query_time now dayStart p.daytime with e | ft
      · simp only [hrt] at h
        exact absurd h (by simp)
      · simp only [hrt] at h
        rcases hsf : search_forecast cwd.forecasts ft with _ | f
        · simp only [hsf] at h
          exact absurd h (by simp)
        · simp only [hsf] at h
          injection h with he
          subst he
          rcases filtered_lookup p f.data with ⟨k1, k2, k3, k4, k5, k6⟩
          exact ⟨cwd, ft, f, rfl, rfl, hsf, rfl, k1, k2, k3, k4, k5, k6⟩
  · intro d
    simp [filtered_data]

/-- Witness for C7: spec scenario 6 — select only temperature on a
forecast with temperature 21.5 and humidity 60; the record holds only
`temperature`. -/
theorem C7_field_projection_witness :
    get_forecast 1200 0 scenario6Table "A" scenario6Params =
      .ok [("temperature", some (43/2))] ∧
    ((∃ cwd forecast_datetime f,
      scenario6Table.lookup "A" = some cwd ∧
      resolve_query_time 1200 0 scenario6Params.daytime = .ok forecast_datetime ∧
      search_forecast cwd.forecasts forecast_datetime = some f ∧
      ([(("temperature" : String), some ((43:ℚ)/2))]) = filtered_data scenario6Params f.data ∧
      ([(("temperature" : String), some ((43:ℚ)/2))]).lookup "temperature" =
        (if scenario6Params.temperature = some true then some f.data.temperature else none) ∧
      ([(("temperature" : String), some ((43:ℚ)/2))]).lookup "humidity" =
        (if scenario6Params.humidity = some true then some f.data.humidity else none) ∧
      ([(("temperature" : String), some ((43:ℚ)/2))]).lookup "precipitation" =
        (if scenario6Params.precipitation = some true then some f.data.precipitation else none) ∧
      ([(("temperature" : String), some ((43:ℚ)/2))]).lookup "pressure" =
        (if scenario6Params.pressure = some true then some f.data.pressure else none) ∧
      ([(("temperature" : String), some ((43:ℚ)/2))]).lookup "wind_speed" =
        (if scenario6Params.wind_speed = some true then some f.data.wind_speed else none) ∧
      ([(("temperature" : String), some ((43:ℚ)/2))]).lookup "wind_direction" =
        (if scenario6Params.wind_direction = some true then some f.data.wind_direction else none)) ∧
    (∀ d : WeatherData, filtered_data {} d =
      [("temperature", d.temperature), ("humidity", d.humidity),
       ("precipitation", d.precipitation), ("pressure", d.pressure),
       ("wind_speed", d.wind_speed), ("wind_direction", d.wind_direction)])) := by
  have hs : search_forecast
      [({ time := 900, data := scenario6Data } : Forecast)] 1200 =
      some { time := 900, data := scenario6Data } := by
    rw [search_forecast_eq (by decide)]
    rfl
  have hlook : scenario6Table.lookup "A" =
      some { location := { latitude := 0, longitude := 0 }
             forecasts := [{ time := 900, data := scenario6Data }] } := rfl
  have hres : resolve_query_time 1200 0 scenario6Params.daytime = .ok 1200 := rfl
  have h : get_forecast 1200 0 scenario6Table "A" scenario6Params =
      .ok [("temperature", some (43/2))] := by
    simp [get_forecast, hlook, scenario6Params, resolve_query_time, hs, filtered_data]
    rfl
  exact ⟨h, C7_field_projection 1200 0 scenario6Table "A" scenario6Params _ h⟩

/-- Counterexample to C8 as stated: the empty daytime string `""` does
not parse as HH:mm, yet `get_forecast` does not fail with BadTime —
Python's `if daytime:` treats the empty string as falsy, so the query
proceeds with the current time (here ending in `noData` on an empty
series). -/
theorem C8_counterexample :
    emptyDaytimeParams.daytime = some "" ∧
    parseHHMM "" = none ∧
    scenario5Table.lookup "a" =
      some { location := { latitude := 0, longitude := 0 }, forecasts := [] } ∧
    get_forecast 0 0 scenario5Table "a" emptyDaytimeParams = .error .noData ∧
    ApiError.noData ≠ ApiError.badTime "" := by
  refine ⟨rfl, by decide, rfl, rfl, by decide⟩

/-- C8 (amended): for a query whose daytime string is non-empty and does
not parse as HH:mm, `get_forecast` on a tracked city fails with BadTime
carrying that string, before any series search; an empty daytime string
is falsy and is treated as absent.  When the string parses as `(h, m)`
the query time is the current day's start combined with that wall-clock
time, and when no string is given the current timestamp is used. -/
theorem C8_badTime_amended (now dayStart : ℕ) (table : TrackingTable)
    (city : String) (p : ForecastQueryParameters) (cwd : CityWeatherData)
    (hcity : table.lookup city = some cwd) :
    (∀ s, p.daytime = some s → s ≠ "" → parseHHMM s = none →
      get_forecast now dayStart table city p = .error (.badTime s)) ∧
    (∀ s h m, p.daytime = some s → parseHHMM s = some (h, m) →
      resolve_query_time now dayStart p.daytime =
        .ok (dayStart + h * 3600 + m * 60)) ∧
    (p.daytime = none → resolve_query_time now dayStart p.daytime = .ok now) := by
  refine ⟨?_, ?_, ?_⟩
  · intro s hds hne hparse
    have hie : s.isEmpty = false := by
      rcases hq : s.isEmpty with _ | _
      · rfl
      · exact absurd ((String.isEmpty_iff _).mp hq) hne
    have hres : resolve_query_time now dayStart p.daytime =
        .error (.badTime s) := by
      rw [hds]
      simp only [resolve_query_time, hie, Bool.false_eq_true, if_false, hparse]
    rw [get_forecast]
    simp only [hcity, hres]
  · intro s h m hds hparse
    have hie : s.isEmpty = false := by
      rcases hq : s.isEmpty with _ | _
      · rfl
      · have hs0 : s = "" := (String.isEmpty_iff _).mp hq
        rw [hs0] at hparse
        rw [show parseHHMM "" = none from rfl] at hparse
        exact absurd hparse (by simp)
    rw [hds]
    simp only [resolve_query_time, hie, Bool.false_eq_true, if_false, hparse]
  · intro hds
    rw [hds]
    rfl

/-- Witness for C8 (amended): spec scenario 5 — daytime "25:99" on a
tracked city yields BadTime. -/
theorem C8_badTime_amended_witness :
    scenario5Table.lookup "a" =
      some { location := { latitude := 0, longitude := 0 }, forecasts := [] } ∧
    badTimeParams.daytime = some "25:99" ∧
    ("25:99" : String) ≠ "" ∧
    parseHHMM "25:99" = none ∧
    get_forecast 7777 0 scenario5Table "a" badTimeParams =
      .error (.badTime "25:99") ∧
    ((∀ s, badTimeParams.daytime = some s → s ≠ "" → parseHHMM s = none →
      get_forecast 7777 0 scenario5Table "a" badTimeParams = .error (.badTime s)) ∧
    (∀ s h m, badTimeParams.daytime = some s → parseHHMM s = some (h, m) →
      resolve_query_time 7777 0 badTimeParams.daytime =
        .ok (0 + h * 3600 + m * 60)) ∧
    (badTimeParams.daytime = none →
      resolve_query_time 7777 0 badTimeParams.daytime = .ok 7777)) := by
  have hth := C8_badTime_amended 7777 0 scenario5Table "a" badTimeParams
    { location := { latitude := 0, longitude := 0 }, forecasts := [] } rfl
  exact ⟨rfl, rfl, by decide, by decide,
    hth.1 "25:99" rfl (by decide) (by decide), hth⟩

/-! ## Snapshot serialization round trip -/

/-- `charDigit` inverts `digitChar` on digit values. -/
lemma charDigit_digitChar (d : ℕ) (h : d < 10) :
    charDigit (digitChar d) = d := by
  interval_cases d <;> rfl

/-- `digitChar` produces digit characters. -/
lemma isDigit_digitChar (d : ℕ) (h : d < 10) :
    (digitChar d).isDigit = true := by
  interval_cases d <;> rfl

/-- `fromisoformat` inverts `isoformat` (in the abstracted decimal
rendering): parsing a rendered instant gives the instant back. -/
lemma isoToTime_timeToIso (t : ℕ) : isoToTime (timeToIso t) = some t := by
  by_cases h0 : t = 0
  · subst h0
    decide
  · rw [timeToIso, if_neg h0, isoToTime]
    have hdigits : ∀ d ∈ Nat.digits 10 t, d < 10 :=
      fun d hd => Nat.digits_lt_base (by norm_num) hd
    have hne : (((Nat.digits 10 t).map digitChar).reverse : List Char) ≠ [] := by
      simp [Nat.digits_ne_nil_iff_ne_zero, h0]
    have hall : (((Nat.digits 10 t).map digitChar).reverse).all
        (fun c => c.isDigit) = true := by
      rw [List.all_eq_true]
      intro c hc
      rw [List.mem_reverse] at hc
      rcases List.mem_map.mp hc with ⟨d, hd, rfl⟩
      exact isDigit_digitChar d (hdigits d hd)
    rw [if_pos ⟨hne, hall⟩]
    congr 1
    rw [List.map_reverse, List.reverse_reverse, List.map_map]
    have hmap : (Nat.digits 10 t).map (charDigit ∘ digitChar) =
        (Nat.digits 10 t).map id := by
      apply List.map_congr_left
      intro d hd
      exact charDigit_digitChar d (hdigits d hd)
    rw [hmap, List.map_id, Nat.ofDigits_digits]

/-- Decoding a serialized optional value. -/
lemma decode_optJson (o : Option ℚ) :
    decode (optJson o) = some (pvOpt o) := by
  cases o <;> simp [optJson, pvOpt, decode]

/-- Valuewise decoding of a serialized `WeatherData` dict. -/
lemma decodeFields_weather (d : WeatherData) :
    decodeFields (dumpWeatherData d) = some (wdFields d) := by
  simp [dumpWeatherData, decodeFields, decode_optJson, wdFields]

/-- The hook leaves a `WeatherData` dict alone: its keys match none of
the decoder's patterns. -/
lemma customDecoder_weather (d : WeatherData) :
    customDecoder (wdFields d) = some (.dict (wdFields d)) := by
  simp [customDecoder, wdFields]

/-- `decode` of a serialized `WeatherData` object. -/
lemma decode_weatherObj (d : WeatherData) :
    decode (.obj (dumpWeatherData d)) = some (.dict (wdFields d)) := by
  simp [decode, decodeFields_weather, customDecoder_weather]

/-- `getOptNum` finds a field's serialized value and revalidates it. -/
lemma getOptNum_pvOpt (key : String) (lo hi : Option ℚ)
    (fields : List (String × PyVal)) (o : Option ℚ)
    (hl : fields.lookup key = some (pvOpt o))
    (hb : o.all (checkNum lo hi) = true) :
    getOptNum key lo hi fields = some o := by
  cases o with
  | none =>
    rw [getOptNum, hl]
    rfl
  | some q =>
    rw [getOptNum, hl]
    simp only [Option.all_some] at hb
    simp [pvOpt, hb]

/-- `WeatherData(**fields)` on the serialized dict rebuilds the value. -/
lemma buildWeatherData_wdFields (d : WeatherData)
    (h : validWeatherData d = true) :
    buildWeatherData (wdFields d) = some d := by
  rcases d with ⟨t, hu, pc, pr, ws, wd⟩
  simp only [validWeatherData, Bool.and_eq_true] at h
  obtain ⟨⟨⟨⟨hhu, hpc⟩, hpr⟩, hws⟩, hwd⟩ := h
  have g1 : getOptNum "temperature" none none
      (wdFields ⟨t, hu, pc, pr, ws, wd⟩) = some t :=
    getOptNum_pvOpt _ _ _ _ _ (by simp [wdFields, List.lookup])
      (by cases t <;> rfl)
  have g2 : getOptNum "humidity" (some 0) (some 100)
      (wdFields ⟨t, hu, pc, pr, ws, wd⟩) = some hu :=
    getOptNum_pvOpt _ _ _ _ _ (by simp [wdFields, List.lookup]) hhu
  have g3 : getOptNum "precipitation" (some 0) none
      (wdFields ⟨t, hu, pc, pr, ws, wd⟩) = some pc :=
    getOptNum_pvOpt _ _ _ _ _ (by simp [wdFields, List.lookup]) hpc
  have g4 : getOptNum "pressure" (some 0) none
      (wdFields ⟨t, hu, pc, pr, ws, wd⟩) = some pr :=
    getOptNum_pvOpt _ _ _ _ _ (by simp [wdFields, List.lookup]) hpr
  have g5 : getOptNum "wind_speed" (some 0) none
      (wdFields ⟨t, hu, pc, pr, ws, wd⟩) = some ws :=
    getOptNum_pvOpt _ _ _ _ _ (by simp [wdFields, List.lookup]) hws
  have g6 : getOptNum "wind_direction" (some 0) (some 360)
      (wdFields ⟨t, hu, pc, pr, ws, wd⟩) = some wd :=
    getOptNum_pvOpt _ _ _ _ _ (by simp [wdFields, List.lookup]) hwd
  simp only [buildWeatherData, g1, g2, g3, g4, g5, g6,
    Option.bind_eq_bind, Option.some_bind]

/-- `decode` of a serialized `Forecast`: the hook rebuilds the object,
parsing the time back and revalidating the data. -/
lemma decode_forecast (f : Forecast) (h : validWeatherData f.data = true) :
    decode (dumpForecast f) = some (.forecast f) := by
  have hfields : decodeFields
      [("time", Json.str (timeToIso f.time)),
       ("data", Json.obj (dumpWeatherData f.data))] =
      some [("time", PyVal.str (timeToIso f.time)),
            ("data", PyVal.dict (wdFields f.data))] := by
    have hstr : decode (.str (timeToIso f.time)) =
        some (.str (timeToIso f.time)) := by
      simp [decode]
    simp [decodeFields, hstr, decode_weatherObj]
  rw [dumpForecast]
  simp only [decode, hfields, Option.bind_eq_bind, Option.some_bind]
  simp [customDecoder, decodeForecastObj, List.lookup, isoToTime_timeToIso,
    buildWeatherData_wdFields f.data h]

/-- Decoding a serialized forecast array elementwise. -/
lemma decodeList_forecasts (fs : List Forecast)
    (h : fs.all (fun f => validWeatherData f.data) = true) :
    decodeList (fs.map dumpForecast) = some (fs.map .forecast) := by
  induction fs with
  | nil => simp [decodeList]
  | cons f rest ih =>
    simp only [List.all_cons, Bool.and_eq_true] at h
    simp [decodeList, decode_forecast f h.1, ih h.2]

/-- The city branch's comprehension recovers each decoded `Forecast`. -/
lemma mapM_forecast_vals (fs : List Forecast) :
    (fs.map PyVal.forecast).mapM (fun v =>
      match v with
      | PyVal.forecast f => some f
      | _ => none) = some fs := by
  induction fs with
  | nil => rfl
  | cons f rest ih =>
    rw [List.map_cons, List.mapM_cons, ih]
    rfl

/-- The rebuilt `CityWeatherData` of the hook's third branch. -/
lemma decodeCityObj_pair (l : Location) (fs : List Forecast) :
    decodeCityObj [("location", PyVal.loc l),
                   ("forecasts", PyVal.list (fs.map .forecast))] =
      some (.city { location := l, forecasts := fs }) := by
  have h : decodeCityObj [("location", PyVal.loc l),
      ("forecasts", PyVal.list (fs.map .forecast))] =
      ((fs.map PyVal.forecast).mapM (fun v =>
        match v with
        | PyVal.forecast f => some f
        | _ => none)).bind
        (fun fs2 => some (.city { location := l, forecasts := fs2 })) := rfl
  rw [h, mapM_forecast_vals]
  rfl

/-- `decode` of a serialized `Location` object: the hook rebuilds the
`Location`, revalidating the coordinate bounds. -/
lemma decode_locationObj (l : Location) (h : validLocation l = true) :
    decode (.obj [("latitude", .num l.latitude),
                  ("longitude", .num l.longitude)]) = some (.loc l) := by
  simp only [validLocation, Bool.and_eq_true] at h
  have hfields : decodeFields [("latitude", Json.num l.latitude),
      ("longitude", Json.num l.longitude)] =
      some [("latitude", PyVal.num l.latitude),
            ("longitude", PyVal.num l.longitude)] := by
    simp [decodeFields, decode]
  simp only [decode, hfields, Option.bind_eq_bind, Option.some_bind]
  simp [customDecoder, decodeLocation, List.lookup, h.1, h.2]

/-- `decode` of a serialized city: the hook rebuilds the
`CityWeatherData` from the already-decoded location and forecasts. -/
lemma decode_city (c : CityWeatherData)
    (hloc : validLocation c.location = true)
    (hfs : c.forecasts.all (fun f => validWeatherData f.data) = true) :
    decode (dumpCity c) = some (.city c) := by
  have harr : decode (.arr (c.forecasts.map dumpForecast)) =
      some (.list (c.forecasts.map .forecast)) := by
    simp [decode, decodeList_forecasts c.forecasts hfs]
  have hfields : decodeFields
      [("location", Json.obj [("latitude", .num c.location.latitude),
                              ("longitude", .num c.location.longitude)]),
       ("forecasts", Json.arr (c.forecasts.map dumpForecast))] =
      some [("location", PyVal.loc c.location),
            ("forecasts", PyVal.list (c.forecasts.map .forecast))] := by
    simp [decodeFields, decode_locationObj c.location hloc, harr]
  rw [dumpCity]
  simp only [decode, hfields, Option.bind_eq_bind, Option.some_bind]
  rw [customDecoder, if_neg (by simp), if_neg (by simp), if_pos (by simp),
    decodeCityObj_pair]

/-- Valuewise decoding of the serialized table. -/
lemma decodeFields_table (table : TrackingTable) (h : validTable table = true) :
    decodeFields (table.map (fun p => (p.1, dumpCity p.2))) =
      some (table.map (fun p => (p.1, .city p.2))) := by
  induction table with
  | nil => rfl
  | cons a rest ih =>
    simp only [validTable, List.all_cons, Bool.and_eq_true] at h
    obtain ⟨⟨hloc, hfs⟩, hrest⟩ := h
    have ihr : decodeFields (rest.map (fun p => (p.1, dumpCity p.2))) =
        some (rest.map (fun p => (p.1, .city p.2))) := by
      apply ih
      simpa [validTable] using hrest
    simp [decodeFields, decode_city a.2 hloc hfs, ihr]

/-- C4 (amended): serializing a valid tracking table and deserializing
the JSON reproduces the table — the same labels mapping to the same
coordinates and forecast timestamps/values — provided the label set does
not simultaneously contain one of the decoder's structural key pairs
("latitude"/"longitude", "time"/"data", "location"/"forecasts"), which
would make the duck-typed hook misread the top-level object. -/
theorem C4_roundtrip_amended (table : TrackingTable)
    (hvalid : validTable table = true)
    (h1 : ¬ ("latitude" ∈ table.map Prod.fst ∧ "longitude" ∈ table.map Prod.fst))
    (h2 : ¬ ("time" ∈ table.map Prod.fst ∧ "data" ∈ table.map Prod.fst))
    (h3 : ¬ ("location" ∈ table.map Prod.fst ∧ "forecasts" ∈ table.map Prod.fst)) :
    load_weather_from_db (dump_weather_to_db table) = some (tableToPyVal table) := by
  rw [load_weather_from_db, dump_weather_to_db]
  simp only [decode, decodeFields_table table hvalid, Option.bind_eq_bind,
    Option.some_bind]
  rw [customDecoder]
  have hkeys : (table.map (fun p => (p.1, PyVal.city p.2))).map Prod.fst =
      table.map Prod.fst := by
    rw [List.map_map]
    rfl
  rw [hkeys, if_neg h1, if_neg h2, if_neg h3]
  rfl

/-- Counterexample to C4 as stated: on the perfectly valid table whose
labels are "location" and "forecasts" (both allowed by the route's label
pattern), the decoder's structural guessing fires on the top-level
object and deserialization raises instead of reproducing the table. -/
theorem C4_roundtrip_counterexample :
    validTable clashTable = true ∧
    load_weather_from_db (dump_weather_to_db clashTable) = none := by
  have hc : decode (dumpCity
      { location := { latitude := 0, longitude := 0 }, forecasts := [] }) =
      some (.city { location := { latitude := 0, longitude := 0 }, forecasts := [] }) :=
    decode_city _ (by decide) (by decide)
  constructor
  · decide
  · rw [load_weather_from_db, dump_weather_to_db]
    have hfields : decodeFields (clashTable.map (fun p => (p.1, dumpCity p.2))) =
        some (clashTable.map (fun p => (p.1, .city p.2))) :=
      decodeFields_table clashTable (by decide)
    simp only [decode, hfields, Option.bind_eq_bind, Option.some_bind]
    rfl

/-- Witness for C4 (amended) at the concrete refreshed table. -/
theorem C4_roundtrip_amended_witness :
    validTable sampleRefreshed = true ∧
    ¬ ("latitude" ∈ sampleRefreshed.map Prod.fst ∧
        "longitude" ∈ sampleRefreshed.map Prod.fst) ∧
    ¬ ("time" ∈ sampleRefreshed.map Prod.fst ∧
        "data" ∈ sampleRefreshed.map Prod.fst) ∧
    ¬ ("location" ∈ sampleRefreshed.map Prod.fst ∧
        "forecasts" ∈ sampleRefreshed.map Prod.fst) ∧
    load_weather_from_db (dump_weather_to_db sampleRefreshed) =
      some (tableToPyVal sampleRefreshed) :=
  ⟨by decide, by decide, by decide, by decide,
    C4_roundtrip_amended sampleRefreshed (by decide) (by decide) (by decide)
      (by decide)⟩

end WeatherInfo
